import Mathlib

/-!
Shallow embedding of the verder-helpen-jwt library (src/src/jwt.rs,
src/src/jwe.rs, src/src/config.rs, src/src/error.rs).

The josekit JOSE library and serde_json are external collaborators of the
repository (spec section 1); they are modelled here symbolically but
executably: a compact-serialized JWS/JWE string is represented by a wire
value carrying the algorithm, an abstract key identity, the protected
header fields and the claim set, and decryption/verification succeed
exactly when the supplied capability handle matches the algorithm and key
identity used at creation.  Rust `String` values are modelled by `RStr`:
either plain text or a compact JWS token (the only strings the pipeline
ever treats as tokens).  JSON values are the inductive `Json`; JSON object
keys are plain Lean strings.  Rust `HashMap<String, String>` is modelled
as an association list (claim lookups and serde round-trips only ever use
key-value content).
-/

namespace VH

/-- Signature algorithms bound by the key-configuration resolver:
RS256 for the RSA family, ES256 for the EC family (config.rs). -/
inductive SigAlg where
  | RS256
  | ES256
deriving DecidableEq, Repr

/-- Key-management (encryption) algorithms bound by the resolver:
RSA-OAEP for the RSA family, ECDH-ES for the EC family (config.rs). -/
inductive EncAlg where
  | RSA_OAEP
  | ECDH_ES
deriving DecidableEq, Repr

mutual
/-- Model of serde_json::Value.  String values carry an `RStr` so that a
compact JWS token stored in a claim (the `njwt` nesting) is a JSON string,
as it is in the Rust code. -/
inductive Json where
  | null : Json
  | bool (b : Bool) : Json
  | num (n : Int) : Json
  | str (s : RStr) : Json
  | arr (elems : List Json) : Json
  | obj (fields : List (String × Json)) : Json

/-- Model of a Rust `String`: either plain text, or the compact
serialization of a signed JWS produced by `jwt::encode_with_signer`
(algorithm, abstract signing-key identity, header token type, claim set). -/
inductive RStr where
  | plain (s : String) : RStr
  | jwsCompact (alg : SigAlg) (keyId : Nat) (typ : Option String)
      (claims : List (String × Json)) : RStr
end

/-- Model of josekit JwtPayload: an insertion-ordered claim set. -/
abbrev JwtPayload := List (String × Json)

/-- Lookup of a claim by name (josekit `JwtPayload::claim`). -/
def JwtPayload.claim (p : JwtPayload) (k : String) : Option Json :=
  match p with
  | [] => none
  | (k', v) :: rest => if k' = k then some v else JwtPayload.claim rest k

/-- Set a claim, replacing an existing entry of the same name
(josekit `JwtPayload::set_claim` with a `Some` value; always succeeds for
the unregistered claim names this library uses). -/
def JwtPayload.setClaim (p : JwtPayload) (k : String) (v : Json) : JwtPayload :=
  match p with
  | [] => [(k, v)]
  | (k', v') :: rest =>
    if k' = k then (k, v) :: rest
    else (k', v') :: JwtPayload.setClaim rest k v

/-- josekit `JwtPayload::set_subject`: stores the `sub` claim. -/
def JwtPayload.setSubject (p : JwtPayload) (s : String) : JwtPayload :=
  p.setClaim "sub" (.str (.plain s))

/-- josekit `JwtPayload::set_issued_at`: stores the `iat` claim as unix
seconds. -/
def JwtPayload.setIssuedAt (p : JwtPayload) (t : Nat) : JwtPayload :=
  p.setClaim "iat" (.num t)

/-- josekit `JwtPayload::set_expires_at`: stores the `exp` claim as unix
seconds. -/
def JwtPayload.setExpiresAt (p : JwtPayload) (t : Nat) : JwtPayload :=
  p.setClaim "exp" (.num t)

/-- serde_json `Value::as_str`: a reference to the string when the value
is a JSON string, `none` otherwise. -/
def Json.asStr : Json → Option RStr
  | .str s => some s
  | _ => none

/-- Model of serde_json::Error (error.rs wraps it without inspecting it;
the one cause the pipeline can hit is a value of unexpected JSON shape). -/
inductive JsonError where
  | invalidType
deriving DecidableEq, Repr

/-- Model of josekit::JoseError (error.rs wraps the library's single error
type without subdividing it). -/
inductive JoseError where
  | invalidJwtFormat
  | verificationFailed
  | decryptionFailed
  | invalidKeyFormat
deriving DecidableEq, Repr

/-- Error type of error.rs: serde_json failures, JOSE-layer failures, and
the structural error for a missing or wrongly typed required claim. -/
inductive Error where
  | Json (e : JsonError)
  | JWT (e : JoseError)
  | InvalidStructure
deriving DecidableEq, Repr

/-- AuthStatus from id_contact_proto: the status enum with the two
variants the spec names. -/
inductive AuthStatus where
  | Succes
  | Failed
deriving DecidableEq, Repr

/-- AuthResult from id_contact_proto: status, optional attribute map
(HashMap String String, modelled as an association list), optional
session URL. -/
structure AuthResult where
  status : AuthStatus
  attributes : Option (List (String × RStr))
  session_url : Option RStr

/-- serde_json::to_value of an AuthStatus: the variant name as a JSON
string. -/
def AuthStatus.toValue : AuthStatus → Json
  | .Succes => .str (.plain "Succes")
  | .Failed => .str (.plain "Failed")

/-- serde_json::from_value::(AuthStatus): only the exact variant-name
strings deserialize; anything else is a serde error. -/
def fromValueAuthStatus : Json → Except JsonError AuthStatus
  | .str (.plain "Succes") => .ok .Succes
  | .str (.plain "Failed") => .ok .Failed
  | _ => .error .invalidType

/-- serde_json::to_value of a HashMap String String: a JSON object whose
values are the strings. -/
def attributesToValue (m : List (String × RStr)) : Json :=
  .obj (m.map fun kv => (kv.1, .str kv.2))

/-- Field walk of serde's map deserializer: every field value must be a
JSON string. -/
def fromValueStringMapGo : List (String × Json) → Except JsonError (List (String × RStr))
  | [] => .ok []
  | (k, .str s) :: rest => (fromValueStringMapGo rest).map fun tail => (k, s) :: tail
  | (_, _) :: _ => .error .invalidType

/-- serde_json::from_value::(HashMap String String): requires a JSON
object with string values; any other shape is a serde error. -/
def fromValueStringMap : Json → Except JsonError (List (String × RStr))
  | .obj fields => fromValueStringMapGo fields
  | _ => .error .invalidType

/-- serde_json::from_value::(String): requires a JSON string. -/
def fromValueString : Json → Except JsonError RStr
  | .str s => .ok s
  | _ => .error .invalidType

/-- Model of a josekit JwsSigner handle: one signature algorithm and one
abstract key identity, fixed at construction. -/
structure JwsSigner where
  alg : SigAlg
  keyId : Nat
deriving DecidableEq, Repr

/-- Model of a josekit JwsVerifier handle. -/
structure JwsVerifier where
  alg : SigAlg
  keyId : Nat
deriving DecidableEq, Repr

/-- Model of a josekit JweEncrypter handle: one key-management algorithm
and one abstract key identity. -/
structure JweEncrypter where
  alg : EncAlg
  keyId : Nat
deriving DecidableEq, Repr

/-- Model of a josekit JweDecrypter handle. -/
structure JweDecrypter where
  alg : EncAlg
  keyId : Nat
deriving DecidableEq, Repr

/-- Model of josekit JwsHeader as used here: only the token type is ever
set (jwt.rs line 24, jwe.rs line 22). -/
structure JwsHeader where
  typ : Option String := none

/-- Model of josekit JweHeader as used here: token type, content type and
content-encryption algorithm. -/
structure JweHeader where
  typ : Option String := none
  cty : Option String := none
  enc : Option String := none

/-- josekit jwt::encode_with_signer: the compact serialization of the
signed inner assertion, determined by the payload, the header's token
type and the signer's algorithm and key. -/
def encode_with_signer (payload : JwtPayload) (header : JwsHeader)
    (signer : JwsSigner) : RStr :=
  .jwsCompact signer.alg signer.keyId header.typ payload

/-- josekit jwt::decode_with_verifier: parses the compact string and
checks the signature; succeeds with the payload exactly when the string
is a compact JWS made with the matching algorithm and key pair.  A plain
string is not a parsable JWS; an algorithm or key mismatch is a
verification failure. -/
def decode_with_verifier (s : RStr) (verifier : JwsVerifier) :
    Except JoseError JwtPayload :=
  match s with
  | .plain _ => .error .invalidJwtFormat
  | .jwsCompact alg keyId _ claims =>
    if alg = verifier.alg ∧ keyId = verifier.keyId then .ok claims
    else .error .verificationFailed

/-- Model of the outer wire artifact handed to the decoders (a Rust
string): either the compact serialization of a JWE envelope, or any other
string, which never decrypts. -/
inductive JweStr where
  | compact (alg : EncAlg) (keyId : Nat) (typ cty enc : Option String)
      (claims : List (String × Json)) : JweStr
  | other (s : String) : JweStr

/-- josekit jwt::encode_with_encrypter: the compact serialization of the
encrypted envelope. -/
def encode_with_encrypter (payload : JwtPayload) (header : JweHeader)
    (encrypter : JweEncrypter) : JweStr :=
  .compact encrypter.alg encrypter.keyId header.typ header.cty header.enc payload

/-- josekit jwt::decode_with_decrypter: decryption succeeds with the
payload exactly when the string is a compact JWE made with the matching
key-management algorithm and key pair; anything else (wrong key,
corrupted or foreign input) is a JOSE-layer failure. -/
def decode_with_decrypter (s : JweStr) (decrypter : JweDecrypter) :
    Except JoseError JwtPayload :=
  match s with
  | .other _ => .error .invalidJwtFormat
  | .compact alg keyId _ _ _ claims =>
    if alg = decrypter.alg ∧ keyId = decrypter.keyId then .ok claims
    else .error .decryptionFailed

/-- jwt.rs sign_and_encrypt_auth_result.  The two `SystemTime::now()`
calls on lines 34 and 35 are modelled by the explicit clock samples
`now1` (taken for `set_issued_at`) and `now2` (taken for
`set_expires_at`), in unix seconds as josekit stores them. -/
def sign_and_encrypt_auth_result (auth_result : AuthResult)
    (signer : JwsSigner) (encrypter : JweEncrypter) (now1 now2 : Nat) :
    Except Error JweStr :=
  let sig_header : JwsHeader := { typ := some "JWT" }
  let sig_payload : JwtPayload := []
  let sig_payload := sig_payload.setSubject "id-contact-attributes"
  let sig_payload := sig_payload.setClaim "status" auth_result.status.toValue
  let sig_payload :=
    match auth_result.attributes with
    | some attributes => sig_payload.setClaim "attributes" (attributesToValue attributes)
    | none => sig_payload
  let sig_payload :=
    match auth_result.session_url with
    | some session_url => sig_payload.setClaim "session_url" (.str session_url)
    | none => sig_payload
  let sig_payload := sig_payload.setIssuedAt now1
  let sig_payload := sig_payload.setExpiresAt (now2 + 5 * 60)
  let jws := encode_with_signer sig_payload sig_header signer
  let enc_header : JweHeader :=
    { typ := some "JWT", cty := some "JWT", enc := some "A128CBC-HS256" }
  let enc_payload : JwtPayload := []
  let enc_payload := enc_payload.setClaim "njwt" (.str jws)
  .ok (encode_with_encrypter enc_payload enc_header encrypter)

/-- jwt.rs decrypt_and_verify_auth_result. -/
def decrypt_and_verify_auth_result (jwe : JweStr) (validator : JwsVerifier)
    (decrypter : JweDecrypter) : Except Error AuthResult :=
  match decode_with_decrypter jwe decrypter with
  | .error e => .error (.JWT e)
  | .ok decoded_jwe =>
    match decoded_jwe.claim "njwt" with
    | none => .error .InvalidStructure
    | some njwt =>
      match njwt.asStr with
      | none => .error .InvalidStructure
      | some jws =>
        match decode_with_verifier jws validator with
        | .error e => .error (.JWT e)
        | .ok decoded_jws =>
          match decoded_jws.claim "status" with
          | none => .error .InvalidStructure
          | some rawStatus =>
            match fromValueAuthStatus rawStatus with
            | .error e => .error (.Json e)
            | .ok status =>
              let rawAttributes :=
                match decoded_jws.claim "attributes" with
                | some raw => (fromValueStringMap raw).map some
                | none => .ok none
              match rawAttributes with
              | .error e => .error (.Json e)
              | .ok attributes =>
                let rawSessionUrl :=
                  match decoded_jws.claim "session_url" with
                  | some raw => (fromValueString raw).map some
                  | none => .ok none
                match rawSessionUrl with
                | .error e => .error (.Json e)
                | .ok session_url =>
                  .ok { status := status, attributes := attributes,
                        session_url := session_url }

/-- jwe.rs sign_and_encrypt_attributes. -/
def sign_and_encrypt_attributes (attributes : List (String × RStr))
    (signer : JwsSigner) (encrypter : JweEncrypter) : Except Error JweStr :=
  let sig_header : JwsHeader := { typ := some "JWT" }
  let sig_payload : JwtPayload := []
  let sig_payload := sig_payload.setSubject "id-contact-attributes"
  let sig_payload := sig_payload.setClaim "attributes" (attributesToValue attributes)
  let jws := encode_with_signer sig_payload sig_header signer
  let enc_header : JweHeader :=
    { typ := some "JWT", cty := some "JWT", enc := some "A128CBC-HS256" }
  let enc_payload : JwtPayload := []
  let enc_payload := enc_payload.setClaim "njwt" (.str jws)
  .ok (encode_with_encrypter enc_payload enc_header encrypter)

/-- jwe.rs decrypt_and_verify_attributes. -/
def decrypt_and_verify_attributes (jwe : JweStr) (validator : JwsVerifier)
    (decrypter : JweDecrypter) : Except Error (List (String × RStr)) :=
  match decode_with_decrypter jwe decrypter with
  | .error e => .error (.JWT e)
  | .ok decoded_jwe =>
    match decoded_jwe.claim "njwt" with
    | none => .error .InvalidStructure
    | some njwt =>
      match njwt.asStr with
      | none => .error .InvalidStructure
      | some jws =>
        match decode_with_verifier jws validator with
        | .error e => .error (.JWT e)
        | .ok decoded_jws =>
          match decoded_jws.claim "attributes" with
          | none => .error .InvalidStructure
          | some raw_attributes =>
            match fromValueStringMap raw_attributes with
            | .error e => .error (.Json e)
            | .ok attributes => .ok attributes

/-- Model of what a PEM string parses as (PEM parsing itself is done by
the external JOSE library): an RSA or EC private or public key with an
abstract pair identity, or material that is no key at all. -/
inductive PemKey where
  | rsaPrivate (id : Nat)
  | rsaPublic (id : Nat)
  | ecPrivate (id : Nat)
  | ecPublic (id : Nat)
  | invalid (s : String)
deriving DecidableEq, Repr

/-- josekit RS256.signer_from_pem: needs an RSA private key. -/
def RS256.signer_from_pem : PemKey → Except JoseError JwsSigner
  | .rsaPrivate id => .ok { alg := .RS256, keyId := id }
  | _ => .error .invalidKeyFormat

/-- josekit RS256.verifier_from_pem: needs an RSA public key. -/
def RS256.verifier_from_pem : PemKey → Except JoseError JwsVerifier
  | .rsaPublic id => .ok { alg := .RS256, keyId := id }
  | _ => .error .invalidKeyFormat

/-- josekit ES256.signer_from_pem: needs an EC private key. -/
def ES256.signer_from_pem : PemKey → Except JoseError JwsSigner
  | .ecPrivate id => .ok { alg := .ES256, keyId := id }
  | _ => .error .invalidKeyFormat

/-- josekit ES256.verifier_from_pem: needs an EC public key. -/
def ES256.verifier_from_pem : PemKey → Except JoseError JwsVerifier
  | .ecPublic id => .ok { alg := .ES256, keyId := id }
  | _ => .error .invalidKeyFormat

/-- josekit RSA_OAEP.encrypter_from_pem: needs an RSA public key. -/
def RSA_OAEP.encrypter_from_pem : PemKey → Except JoseError JweEncrypter
  | .rsaPublic id => .ok { alg := .RSA_OAEP, keyId := id }
  | _ => .error .invalidKeyFormat

/-- josekit RSA_OAEP.decrypter_from_pem: needs an RSA private key. -/
def RSA_OAEP.decrypter_from_pem : PemKey → Except JoseError JweDecrypter
  | .rsaPrivate id => .ok { alg := .RSA_OAEP, keyId := id }
  | _ => .error .invalidKeyFormat

/-- josekit ECDH_ES.encrypter_from_pem: needs an EC public key. -/
def ECDH_ES.encrypter_from_pem : PemKey → Except JoseError JweEncrypter
  | .ecPublic id => .ok { alg := .ECDH_ES, keyId := id }
  | _ => .error .invalidKeyFormat

/-- josekit ECDH_ES.decrypter_from_pem: needs an EC private key. -/
def ECDH_ES.decrypter_from_pem : PemKey → Except JoseError JweDecrypter
  | .ecPrivate id => .ok { alg := .ECDH_ES, keyId := id }
  | _ => .error .invalidKeyFormat

/-- config.rs InnerKeyConfig: the PEM key string (its parse result in
this model). -/
structure InnerKeyConfig where
  key : PemKey
deriving DecidableEq, Repr

/-- config.rs InnerKeyConfig's hand-written Debug impl:
`f.debug_struct("InnerKeyConfig").finish()` renders only the struct name,
never the key field. -/
def InnerKeyConfig.debugFmt (_ : InnerKeyConfig) : String :=
  "InnerKeyConfig"

/-- config.rs EncryptionKeyConfig: the tagged key description, the
discriminator being the RSA/EC family tag. -/
inductive EncryptionKeyConfig where
  | RSA (k : InnerKeyConfig)
  | EC (k : InnerKeyConfig)
deriving DecidableEq, Repr

/-- config.rs SignKeyConfig: same shape, consumed by the signing-role
conversions. -/
inductive SignKeyConfig where
  | RSA (k : InnerKeyConfig)
  | EC (k : InnerKeyConfig)
deriving DecidableEq, Repr

/-- Derived Debug of EncryptionKeyConfig: variant name around the inner
config's Debug output. -/
def EncryptionKeyConfig.debugFmt : EncryptionKeyConfig → String
  | .RSA k => "RSA(" ++ k.debugFmt ++ ")"
  | .EC k => "EC(" ++ k.debugFmt ++ ")"

/-- Derived Debug of SignKeyConfig. -/
def SignKeyConfig.debugFmt : SignKeyConfig → String
  | .RSA k => "RSA(" ++ k.debugFmt ++ ")"
  | .EC k => "EC(" ++ k.debugFmt ++ ")"

/-- config.rs TryFrom EncryptionKeyConfig for Box JweDecrypter. -/
def EncryptionKeyConfig.tryIntoDecrypter :
    EncryptionKeyConfig → Except Error JweDecrypter
  | .RSA k => (RSA_OAEP.decrypter_from_pem k.key).mapError .JWT
  | .EC k => (ECDH_ES.decrypter_from_pem k.key).mapError .JWT

/-- config.rs TryFrom EncryptionKeyConfig for Box JweEncrypter. -/
def EncryptionKeyConfig.tryIntoEncrypter :
    EncryptionKeyConfig → Except Error JweEncrypter
  | .RSA k => (RSA_OAEP.encrypter_from_pem k.key).mapError .JWT
  | .EC k => (ECDH_ES.encrypter_from_pem k.key).mapError .JWT

/-- config.rs TryFrom SignKeyConfig for Box JwsVerifier. -/
def SignKeyConfig.tryIntoVerifier :
    SignKeyConfig → Except Error JwsVerifier
  | .RSA k => (RS256.verifier_from_pem k.key).mapError .JWT
  | .EC k => (ES256.verifier_from_pem k.key).mapError .JWT

/-- config.rs TryFrom SignKeyConfig for Box JwsSigner. -/
def SignKeyConfig.tryIntoSigner :
    SignKeyConfig → Except Error JwsSigner
  | .RSA k => (RS256.signer_from_pem k.key).mapError .JWT
  | .EC k => (ES256.signer_from_pem k.key).mapError .JWT

/-!
Helper lemmas shared by the claim theorems.
-/

/-- Round-trip of the status encoding through serde. -/
theorem fromValueAuthStatus_toValue (s : AuthStatus) :
    fromValueAuthStatus s.toValue = .ok s := by
  cases s <;> rfl

/-- Round-trip of the attribute map through serde. -/
theorem fromValueStringMap_attributesToValue (m : List (String × RStr)) :
    fromValueStringMap (attributesToValue m) = .ok m := by
  simp only [attributesToValue, fromValueStringMap]
  induction m with
  | nil => rfl
  | cons kv rest ih => simp [fromValueStringMapGo, ih, Except.map]

/-- A successful claim lookup returns a value stored in the payload. -/
theorem JwtPayload.claim_mem {p : JwtPayload} {k : String} {v : Json}
    (h : p.claim k = some v) : ∃ k', (k', v) ∈ p := by
  induction p with
  | nil => simp [JwtPayload.claim] at h
  | cons kv rest ih =>
    rw [JwtPayload.claim] at h
    by_cases hk : kv.1 = k
    · refine ⟨kv.1, ?_⟩
      simp only [hk, if_pos rfl] at h
      cases h
      exact List.mem_cons_self _ _
    · rw [if_neg hk] at h
      obtain ⟨k', hk'⟩ := ih h
      exact ⟨k', List.mem_cons_of_mem _ hk'⟩

/-- An AuthStatus never serializes to JSON null. -/
theorem AuthStatus.toValue_ne_null (s : AuthStatus) : s.toValue ≠ .null := by
  cases s <;> simp [AuthStatus.toValue]

/-!
Claim theorems.
-/

/-- Claim C10: the hand-written Debug impl of InnerKeyConfig renders the
same constant output for any two key configurations, and so do the
derived Debug impls of EncryptionKeyConfig and SignKeyConfig around it:
the PEM key material never reaches Debug output. -/
theorem C10_debug_never_leaks_key (k1 k2 : InnerKeyConfig) :
    k1.debugFmt = k2.debugFmt ∧
    (EncryptionKeyConfig.RSA k1).debugFmt = (EncryptionKeyConfig.RSA k2).debugFmt ∧
    (EncryptionKeyConfig.EC k1).debugFmt = (EncryptionKeyConfig.EC k2).debugFmt ∧
    (SignKeyConfig.RSA k1).debugFmt = (SignKeyConfig.RSA k2).debugFmt ∧
    (SignKeyConfig.EC k1).debugFmt = (SignKeyConfig.EC k2).debugFmt :=
  ⟨rfl, rfl, rfl, rfl, rfl⟩

/-- Claim C7: the attribute encoder builds an inner assertion with header
type JWT, subject id-contact-attributes and the single domain claim
`attributes` (serialized mapping), sets no expiry, and wraps the compact
inner assertion as the string value of claim `njwt` in an outer envelope
with header type JWT, content type JWT and content encryption
A128CBC-HS256. -/
theorem C7_attribute_encoder_shape (attributes : List (String × RStr))
    (signer : JwsSigner) (encrypter : JweEncrypter) :
    sign_and_encrypt_attributes attributes signer encrypter =
      .ok (.compact encrypter.alg encrypter.keyId (some "JWT") (some "JWT")
        (some "A128CBC-HS256")
        [("njwt", .str (.jwsCompact signer.alg signer.keyId (some "JWT")
          [("sub", .str (.plain "id-contact-attributes")),
           ("attributes", attributesToValue attributes)]))]) ∧
    JwtPayload.claim
      [("sub", Json.str (.plain "id-contact-attributes")),
       ("attributes", attributesToValue attributes)] "exp" = none :=
  ⟨rfl, rfl⟩

/-- Claim C6: each role conversion binds the algorithm solely from the
RSA/EC discriminator tag (RSA yields RS256 or RSA-OAEP handles, EC yields
ES256 or ECDH-ES handles, whatever the PEM holds), and a PEM that does
not parse as a key of the claimed family for the requested role makes the
conversion fail with a JOSE-layer error. -/
theorem C6_resolver_algorithm_binding :
    (∀ k d, (EncryptionKeyConfig.RSA k).tryIntoDecrypter = .ok d → d.alg = .RSA_OAEP) ∧
    (∀ k d, (EncryptionKeyConfig.EC k).tryIntoDecrypter = .ok d → d.alg = .ECDH_ES) ∧
    (∀ k e, (EncryptionKeyConfig.RSA k).tryIntoEncrypter = .ok e → e.alg = .RSA_OAEP) ∧
    (∀ k e, (EncryptionKeyConfig.EC k).tryIntoEncrypter = .ok e → e.alg = .ECDH_ES) ∧
    (∀ k s, (SignKeyConfig.RSA k).tryIntoSigner = .ok s → s.alg = .RS256) ∧
    (∀ k s, (SignKeyConfig.EC k).tryIntoSigner = .ok s → s.alg = .ES256) ∧
    (∀ k v, (SignKeyConfig.RSA k).tryIntoVerifier = .ok v → v.alg = .RS256) ∧
    (∀ k v, (SignKeyConfig.EC k).tryIntoVerifier = .ok v → v.alg = .ES256) ∧
    (∀ k, (∀ i, k.key ≠ .rsaPrivate i) →
      ∃ e, (EncryptionKeyConfig.RSA k).tryIntoDecrypter = .error (.JWT e)) ∧
    (∀ k, (∀ i, k.key ≠ .ecPrivate i) →
      ∃ e, (EncryptionKeyConfig.EC k).tryIntoDecrypter = .error (.JWT e)) ∧
    (∀ k, (∀ i, k.key ≠ .rsaPublic i) →
      ∃ e, (EncryptionKeyConfig.RSA k).tryIntoEncrypter = .error (.JWT e)) ∧
    (∀ k, (∀ i, k.key ≠ .ecPublic i) →
      ∃ e, (EncryptionKeyConfig.EC k).tryIntoEncrypter = .error (.JWT e)) ∧
    (∀ k, (∀ i, k.key ≠ .rsaPrivate i) →
      ∃ e, (SignKeyConfig.RSA k).tryIntoSigner = .error (.JWT e)) ∧
    (∀ k, (∀ i, k.key ≠ .ecPrivate i) →
      ∃ e, (SignKeyConfig.EC k).tryIntoSigner = .error (.JWT e)) ∧
    (∀ k, (∀ i, k.key ≠ .rsaPublic i) →
      ∃ e, (SignKeyConfig.RSA k).tryIntoVerifier = .error (.JWT e)) ∧
    (∀ k, (∀ i, k.key ≠ .ecPublic i) →
      ∃ e, (SignKeyConfig.EC k).tryIntoVerifier = .error (.JWT e)) := by
  refine ⟨?_, ?_, ?_, ?_, ?_, ?_, ?_, ?_, ?_, ?_, ?_, ?_, ?_, ?_, ?_, ?_⟩
  · rintro ⟨pem⟩ d h
    cases pem <;>
      simp_all [EncryptionKeyConfig.tryIntoDecrypter, RSA_OAEP.decrypter_from_pem,
        Except.mapError]
    rw [← h]
  · rintro ⟨pem⟩ d h
    cases pem <;>
      simp_all [EncryptionKeyConfig.tryIntoDecrypter, ECDH_ES.decrypter_from_pem,
        Except.mapError]
    rw [← h]
  · rintro ⟨pem⟩ e h
    cases pem <;>
      simp_all [EncryptionKeyConfig.tryIntoEncrypter, RSA_OAEP.encrypter_from_pem,
        Except.mapError]
    rw [← h]
  · rintro ⟨pem⟩ e h
    cases pem <;>
      simp_all [EncryptionKeyConfig.tryIntoEncrypter, ECDH_ES.encrypter_from_pem,
        Except.mapError]
    rw [← h]
  · rintro ⟨pem⟩ s h
    cases pem <;>
      simp_all [SignKeyConfig.tryIntoSigner, RS256.signer_from_pem, Except.mapError]
    rw [← h]
  · rintro ⟨pem⟩ s h
    cases pem <;>
      simp_all [SignKeyConfig.tryIntoSigner, ES256.signer_from_pem, Except.mapError]
    rw [← h]
  · rintro ⟨pem⟩ v h
    cases pem <;>
      simp_all [SignKeyConfig.tryIntoVerifier, RS256.verifier_from_pem, Except.mapError]
    rw [← h]
  · rintro ⟨pem⟩ v h
    cases pem <;>
      simp_all [SignKeyConfig.tryIntoVerifier, ES256.verifier_from_pem, Except.mapError]
    rw [← h]
  · rintro ⟨pem⟩ hne
    cases pem
    case rsaPrivate i => exact absurd rfl (hne i)
    all_goals exact ⟨.invalidKeyFormat, rfl⟩
  · rintro ⟨pem⟩ hne
    cases pem
    case ecPrivate i => exact absurd rfl (hne i)
    all_goals exact ⟨.invalidKeyFormat, rfl⟩
  · rintro ⟨pem⟩ hne
    cases pem
    case rsaPublic i => exact absurd rfl (hne i)
    all_goals exact ⟨.invalidKeyFormat, rfl⟩
  · rintro ⟨pem⟩ hne
    cases pem
    case ecPublic i => exact absurd rfl (hne i)
    all_goals exact ⟨.invalidKeyFormat, rfl⟩
  · rintro ⟨pem⟩ hne
    cases pem
    case rsaPrivate i => exact absurd rfl (hne i)
    all_goals exact ⟨.invalidKeyFormat, rfl⟩
  · rintro ⟨pem⟩ hne
    cases pem
    case ecPrivate i => exact absurd rfl (hne i)
    all_goals exact ⟨.invalidKeyFormat, rfl⟩
  · rintro ⟨pem⟩ hne
    cases pem
    case rsaPublic i => exact absurd rfl (hne i)
    all_goals exact ⟨.invalidKeyFormat, rfl⟩
  · rintro ⟨pem⟩ hne
    cases pem
    case ecPublic i => exact absurd rfl (hne i)
    all_goals exact ⟨.invalidKeyFormat, rfl⟩

/-- Witness for C6 at concrete configurations: a matching RSA private key
resolves to an RSA-OAEP decrypter, and family mismatches fail with a
JOSE-layer error. -/
theorem C6_resolver_witness :
    JweDecrypter.alg { alg := .RSA_OAEP, keyId := 0 } = .RSA_OAEP ∧
    (∃ e, (EncryptionKeyConfig.RSA ⟨.ecPrivate 0⟩).tryIntoDecrypter = .error (.JWT e)) ∧
    (∃ e, (SignKeyConfig.RSA ⟨.ecPrivate 1⟩).tryIntoVerifier = .error (.JWT e)) := by
  obtain ⟨h1, -, -, -, -, -, -, -, h9, -, -, -, -, -, h15, -⟩ :=
    C6_resolver_algorithm_binding
  refine ⟨h1 ⟨.rsaPrivate 0⟩ _ rfl, h9 ⟨.ecPrivate 0⟩ ?_, h15 ⟨.ecPrivate 1⟩ ?_⟩
  · intro i h
    cases h
  · intro i h
    cases h

/-- Claim C4: the inner assertion built by the auth-result encoder has
subject id-contact-attributes and header type JWT, always carries a
`status` claim, carries `attributes` and `session_url` claims exactly
when the corresponding input fields are present, and stores no null
claim values. -/
theorem C4_auth_encoder_inner_shape (ar : AuthResult) (signer : JwsSigner)
    (encrypter : JweEncrypter) (now1 now2 : Nat) :
    ∃ inner : JwtPayload,
      sign_and_encrypt_auth_result ar signer encrypter now1 now2 =
        .ok (.compact encrypter.alg encrypter.keyId (some "JWT") (some "JWT")
          (some "A128CBC-HS256")
          [("njwt", .str (.jwsCompact signer.alg signer.keyId (some "JWT") inner))]) ∧
      inner.claim "sub" = some (.str (.plain "id-contact-attributes")) ∧
      inner.claim "status" = some ar.status.toValue ∧
      ((inner.claim "attributes").isSome ↔ ar.attributes.isSome) ∧
      ((inner.claim "session_url").isSome ↔ ar.session_url.isSome) ∧
      (∀ k v, inner.claim k = some v → v ≠ .null) := by
  obtain ⟨st, attrs, url⟩ := ar
  cases attrs with
  | none =>
    cases url with
    | none =>
      refine ⟨[("sub", .str (.plain "id-contact-attributes")), ("status", st.toValue),
               ("iat", .num ((now1 : Nat) : Int)),
               ("exp", .num ((now2 + 5 * 60 : Nat) : Int))],
              rfl, rfl, rfl, Iff.rfl, Iff.rfl, ?_⟩
      intro k v h
      obtain ⟨k', hm⟩ := JwtPayload.claim_mem h
      simp only [List.mem_cons, List.not_mem_nil, or_false, Prod.mk.injEq] at hm
      rcases hm with ⟨-, rfl⟩ | ⟨-, rfl⟩ | ⟨-, rfl⟩ | ⟨-, rfl⟩ <;>
        simp [AuthStatus.toValue_ne_null]
    | some u =>
      refine ⟨[("sub", .str (.plain "id-contact-attributes")), ("status", st.toValue),
               ("session_url", .str u),
               ("iat", .num ((now1 : Nat) : Int)),
               ("exp", .num ((now2 + 5 * 60 : Nat) : Int))],
              rfl, rfl, rfl, Iff.rfl, Iff.rfl, ?_⟩
      intro k v h
      obtain ⟨k', hm⟩ := JwtPayload.claim_mem h
      simp only [List.mem_cons, List.not_mem_nil, or_false, Prod.mk.injEq] at hm
      rcases hm with ⟨-, rfl⟩ | ⟨-, rfl⟩ | ⟨-, rfl⟩ | ⟨-, rfl⟩ | ⟨-, rfl⟩ <;>
        simp [AuthStatus.toValue_ne_null]
  | some a =>
    cases url with
    | none =>
      refine ⟨[("sub", .str (.plain "id-contact-attributes")), ("status", st.toValue),
               ("attributes", attributesToValue a),
               ("iat", .num ((now1 : Nat) : Int)),
               ("exp", .num ((now2 + 5 * 60 : Nat) : Int))],
              rfl, rfl, rfl, Iff.rfl, Iff.rfl, ?_⟩
      intro k v h
      obtain ⟨k', hm⟩ := JwtPayload.claim_mem h
      simp only [List.mem_cons, List.not_mem_nil, or_false, Prod.mk.injEq] at hm
      rcases hm with ⟨-, rfl⟩ | ⟨-, rfl⟩ | ⟨-, rfl⟩ | ⟨-, rfl⟩ | ⟨-, rfl⟩ <;>
        simp [AuthStatus.toValue_ne_null, attributesToValue]
    | some u =>
      refine ⟨[("sub", .str (.plain "id-contact-attributes")), ("status", st.toValue),
               ("attributes", attributesToValue a), ("session_url", .str u),
               ("iat", .num ((now1 : Nat) : Int)),
               ("exp", .num ((now2 + 5 * 60 : Nat) : Int))],
              rfl, rfl, rfl, Iff.rfl, Iff.rfl, ?_⟩
      intro k v h
      obtain ⟨k', hm⟩ := JwtPayload.claim_mem h
      simp only [List.mem_cons, List.not_mem_nil, or_false, Prod.mk.injEq] at hm
      rcases hm with ⟨-, rfl⟩ | ⟨-, rfl⟩ | ⟨-, rfl⟩ | ⟨-, rfl⟩ | ⟨-, rfl⟩ | ⟨-, rfl⟩ <;>
        simp [AuthStatus.toValue_ne_null, attributesToValue]

/-- Claim C5 counterexample: with the first clock sample at second 0 and
the second at second 1 (the two separate SystemTime::now() calls on jwt.rs
lines 34 and 35), the produced inner assertion has iat 0 but exp 301, so
exp does not equal iat plus exactly 300. -/
theorem C5_two_clock_samples_counterexample :
    sign_and_encrypt_auth_result ⟨.Failed, none, none⟩
        { alg := .RS256, keyId := 0 } { alg := .RSA_OAEP, keyId := 0 } 0 1 =
      .ok (.compact .RSA_OAEP 0 (some "JWT") (some "JWT") (some "A128CBC-HS256")
        [("njwt", .str (.jwsCompact .RS256 0 (some "JWT")
          [("sub", .str (.plain "id-contact-attributes")),
           ("status", .str (.plain "Failed")),
           ("iat", .num 0), ("exp", .num 301)]))]) ∧
    JwtPayload.claim
      [("sub", Json.str (.plain "id-contact-attributes")),
       ("status", Json.str (.plain "Failed")),
       ("iat", Json.num 0), ("exp", Json.num 301)] "iat" = some (.num 0) ∧
    JwtPayload.claim
      [("sub", Json.str (.plain "id-contact-attributes")),
       ("status", Json.str (.plain "Failed")),
       ("iat", Json.num 0), ("exp", Json.num 301)] "exp" = some (.num 301) ∧
    (301 : Int) ≠ 0 + 300 := by
  refine ⟨rfl, rfl, rfl, by decide⟩

/-- Claim C5 amended: the inner assertion's exp claim equals the second
clock sample plus 300 seconds and its iat claim equals the first sample;
whenever the two SystemTime::now() calls of sign_and_encrypt_auth_result
land on the same second, exp equals iat plus exactly 300 seconds. -/
theorem C5_exp_is_iat_plus_300_when_clock_agrees (ar : AuthResult)
    (signer : JwsSigner) (encrypter : JweEncrypter) (now1 now2 : Nat)
    (hclock : now1 = now2) :
    ∃ inner : JwtPayload,
      sign_and_encrypt_auth_result ar signer encrypter now1 now2 =
        .ok (.compact encrypter.alg encrypter.keyId (some "JWT") (some "JWT")
          (some "A128CBC-HS256")
          [("njwt", .str (.jwsCompact signer.alg signer.keyId (some "JWT") inner))]) ∧
      inner.claim "iat" = some (.num now1) ∧
      inner.claim "exp" = some (.num (now1 + 300)) := by
  subst hclock
  obtain ⟨st, attrs, url⟩ := ar
  cases attrs <;> cases url <;> exact ⟨_, rfl, rfl, rfl⟩

/-- Witness for the amended C5 at a concrete input. -/
theorem C5_exp_witness :
    ∃ inner : JwtPayload,
      sign_and_encrypt_auth_result ⟨.Succes, none, none⟩
          { alg := .ES256, keyId := 3 } { alg := .ECDH_ES, keyId := 4 } 17 17 =
        .ok (.compact .ECDH_ES 4 (some "JWT") (some "JWT") (some "A128CBC-HS256")
          [("njwt", .str (.jwsCompact .ES256 3 (some "JWT") inner))]) ∧
      inner.claim "iat" = some (.num 17) ∧
      inner.claim "exp" = some (.num (17 + 300)) :=
  C5_exp_is_iat_plus_300_when_clock_agrees ⟨.Succes, none, none⟩
    { alg := .ES256, keyId := 3 } { alg := .ECDH_ES, keyId := 4 } 17 17 rfl

/-- Claim C1: decoding the output of the auth-result encoder with the
verifier matching the signer's key and the decrypter matching the
encrypter's key succeeds and returns the original AuthResult, for every
status, optional attribute map and optional session URL. -/
theorem C1_roundtrip (ar : AuthResult) (signer : JwsSigner)
    (verifier : JwsVerifier) (encrypter : JweEncrypter)
    (decrypter : JweDecrypter) (now1 now2 : Nat) (jwe : JweStr)
    (hva : verifier.alg = signer.alg) (hvk : verifier.keyId = signer.keyId)
    (hda : decrypter.alg = encrypter.alg)
    (hdk : decrypter.keyId = encrypter.keyId)
    (henc : sign_and_encrypt_auth_result ar signer encrypter now1 now2 = .ok jwe) :
    decrypt_and_verify_auth_result jwe verifier decrypter = .ok ar := by
  obtain ⟨st, attrs, url⟩ := ar
  cases attrs <;> cases url <;>
    (simp only [sign_and_encrypt_auth_result, encode_with_signer,
       encode_with_encrypter, Except.ok.injEq] at henc
     subst henc
     simp [decrypt_and_verify_auth_result, decode_with_decrypter,
       decode_with_verifier, Json.asStr, JwtPayload.claim, JwtPayload.setClaim,
       JwtPayload.setSubject, JwtPayload.setIssuedAt, JwtPayload.setExpiresAt,
       hda, hdk, hva, hvk, fromValueAuthStatus_toValue,
       fromValueStringMap_attributesToValue, fromValueString, Except.map])

/-- Witness for C1: the concrete scenario of the spec with EC-family
handles, attributes and a session URL. -/
theorem C1_roundtrip_witness :
    decrypt_and_verify_auth_result
      (.compact .ECDH_ES 6 (some "JWT") (some "JWT") (some "A128CBC-HS256")
        [("njwt", .str (.jwsCompact .ES256 5 (some "JWT")
          [("sub", .str (.plain "id-contact-attributes")),
           ("status", .str (.plain "Succes")),
           ("attributes", attributesToValue [("A", .plain "B"), ("C", .plain "D")]),
           ("session_url", .str (.plain "https://example.com")),
           ("iat", .num ((100 : Nat) : Int)),
           ("exp", .num ((100 + 5 * 60 : Nat) : Int))]))])
      { alg := .ES256, keyId := 5 } { alg := .ECDH_ES, keyId := 6 } =
      .ok ⟨.Succes, some [("A", .plain "B"), ("C", .plain "D")],
           some (.plain "https://example.com")⟩ :=
  C1_roundtrip
    ⟨.Succes, some [("A", .plain "B"), ("C", .plain "D")],
     some (.plain "https://example.com")⟩
    { alg := .ES256, keyId := 5 } { alg := .ES256, keyId := 5 }
    { alg := .ECDH_ES, keyId := 6 } { alg := .ECDH_ES, keyId := 6 }
    100 100 _ rfl rfl rfl rfl rfl

/-- Claim C2: in both decode flows, once the outer envelope decrypts, a
missing `njwt` claim, or an `njwt` claim whose JSON value is not a
string, yields exactly the InvalidStructure error. -/
theorem C2_njwt_invalid_structure (jwe : JweStr) (validator : JwsVerifier)
    (decrypter : JweDecrypter) (payload : JwtPayload)
    (hdec : decode_with_decrypter jwe decrypter = .ok payload)
    (hnjwt : payload.claim "njwt" = none ∨
      ∃ j, payload.claim "njwt" = some j ∧ j.asStr = none) :
    decrypt_and_verify_auth_result jwe validator decrypter =
      .error .InvalidStructure ∧
    decrypt_and_verify_attributes jwe validator decrypter =
      .error .InvalidStructure := by
  rcases hnjwt with h | ⟨j, hj, hjs⟩
  · exact ⟨by simp [decrypt_and_verify_auth_result, hdec, h],
           by simp [decrypt_and_verify_attributes, hdec, h]⟩
  · exact ⟨by simp [decrypt_and_verify_auth_result, hdec, hj, hjs],
           by simp [decrypt_and_verify_attributes, hdec, hj, hjs]⟩

/-- Witness for C2: a decryptable envelope with no `njwt` claim, and one
whose `njwt` claim is a number, both decode to InvalidStructure in both
flows. -/
theorem C2_njwt_witness :
    (decrypt_and_verify_auth_result (.compact .RSA_OAEP 0 none none none [])
        { alg := .RS256, keyId := 0 } { alg := .RSA_OAEP, keyId := 0 } =
      .error .InvalidStructure ∧
     decrypt_and_verify_attributes (.compact .RSA_OAEP 0 none none none [])
        { alg := .RS256, keyId := 0 } { alg := .RSA_OAEP, keyId := 0 } =
      .error .InvalidStructure) ∧
    (decrypt_and_verify_auth_result
        (.compact .RSA_OAEP 0 none none none [("njwt", .num 7)])
        { alg := .RS256, keyId := 0 } { alg := .RSA_OAEP, keyId := 0 } =
      .error .InvalidStructure ∧
     decrypt_and_verify_attributes
        (.compact .RSA_OAEP 0 none none none [("njwt", .num 7)])
        { alg := .RS256, keyId := 0 } { alg := .RSA_OAEP, keyId := 0 } =
      .error .InvalidStructure) :=
  ⟨C2_njwt_invalid_structure _ _ _ [] rfl (.inl rfl),
   C2_njwt_invalid_structure _ _ _ [("njwt", .num 7)] rfl
     (.inr ⟨.num 7, rfl, rfl⟩)⟩

/-- A JSON value that is neither of the two status strings fails status
deserialization. -/
theorem fromValueAuthStatus_error {j : Json}
    (h1 : j ≠ .str (.plain "Succes")) (h2 : j ≠ .str (.plain "Failed")) :
    fromValueAuthStatus j = .error .invalidType := by
  unfold fromValueAuthStatus
  split
  · exact absurd rfl h1
  · exact absurd rfl h2
  · rfl

/-- The JSON shapes accepted by the HashMap String String deserializer:
an object all of whose field values are strings. -/
def isStringMapShape (j : Json) : Prop :=
  ∃ fields, j = .obj fields ∧ ∀ kv ∈ fields, ∃ s, kv.2 = Json.str s

/-- The field walk fails when some field value is not a string. -/
theorem fromValueStringMapGo_error {fields : List (String × Json)}
    (h : ∃ kv ∈ fields, ∀ s, kv.2 ≠ Json.str s) :
    fromValueStringMapGo fields = .error .invalidType := by
  induction fields with
  | nil => simp at h
  | cons kv rest ih =>
    obtain ⟨kv', hmem, hns⟩ := h
    rcases List.mem_cons.mp hmem with rfl | hmem'
    · obtain ⟨k, v⟩ := kv'
      cases v with
      | str s => exact absurd rfl (hns s)
      | null => rfl
      | bool b => rfl
      | num n => rfl
      | arr es => rfl
      | obj fs => rfl
    · obtain ⟨k, v⟩ := kv
      cases v with
      | str s => simp [fromValueStringMapGo, ih ⟨kv', hmem', hns⟩, Except.map]
      | null => rfl
      | bool b => rfl
      | num n => rfl
      | arr es => rfl
      | obj fs => rfl

/-- Deserializing a value of the wrong shape into a string-to-string map
is a serde error. -/
theorem fromValueStringMap_error {j : Json} (h : ¬ isStringMapShape j) :
    fromValueStringMap j = .error .invalidType := by
  cases j with
  | obj fields =>
    have h' : ∃ kv ∈ fields, ∀ s, kv.2 ≠ Json.str s := by
      by_contra hall
      push_neg at hall
      exact h ⟨fields, rfl, hall⟩
    exact fromValueStringMapGo_error h'
  | null => rfl
  | bool b => rfl
  | num n => rfl
  | str s => rfl
  | arr es => rfl

/-- Deserializing a non-string JSON value into a String is a serde
error. -/
theorem fromValueString_error {j : Json} (h : ∀ s, j ≠ .str s) :
    fromValueString j = .error .invalidType := by
  cases j with
  | str s => exact absurd rfl (h s)
  | null => rfl
  | bool b => rfl
  | num n => rfl
  | arr es => rfl
  | obj fs => rfl

/-- Claim C3: in the auth-result decoder, once decryption, njwt
extraction and signature verification succeed, a missing `status` claim
yields InvalidStructure, a `status` value that is no valid AuthStatus
variant yields a serialization error, and absent `attributes` and
`session_url` claims are each independently tolerated, reconstructed as
None. -/
theorem C3_status_required_optionals_tolerated (jwe : JweStr)
    (validator : JwsVerifier) (decrypter : JweDecrypter)
    (payload inner : JwtPayload) (s : RStr)
    (hdec : decode_with_decrypter jwe decrypter = .ok payload)
    (hnjwt : payload.claim "njwt" = some (.str s))
    (hver : decode_with_verifier s validator = .ok inner) :
    (inner.claim "status" = none →
      decrypt_and_verify_auth_result jwe validator decrypter =
        .error .InvalidStructure) ∧
    (∀ raw, inner.claim "status" = some raw →
      raw ≠ .str (.plain "Succes") → raw ≠ .str (.plain "Failed") →
      decrypt_and_verify_auth_result jwe validator decrypter =
        .error (.Json .invalidType)) ∧
    (∀ raw st, inner.claim "status" = some raw →
      fromValueAuthStatus raw = .ok st →
      inner.claim "attributes" = none → inner.claim "session_url" = none →
      decrypt_and_verify_auth_result jwe validator decrypter =
        .ok ⟨st, none, none⟩) ∧
    (∀ raw st u, inner.claim "status" = some raw →
      fromValueAuthStatus raw = .ok st →
      inner.claim "attributes" = none →
      inner.claim "session_url" = some (.str u) →
      decrypt_and_verify_auth_result jwe validator decrypter =
        .ok ⟨st, none, some u⟩) ∧
    (∀ raw st rawA m, inner.claim "status" = some raw →
      fromValueAuthStatus raw = .ok st →
      inner.claim "attributes" = some rawA →
      fromValueStringMap rawA = .ok m →
      inner.claim "session_url" = none →
      decrypt_and_verify_auth_result jwe validator decrypter =
        .ok ⟨st, some m, none⟩) := by
  refine ⟨?_, ?_, ?_, ?_, ?_⟩
  · intro hs
    simp [decrypt_and_verify_auth_result, hdec, hnjwt, Json.asStr, hver, hs]
  · intro raw hs h1 h2
    simp [decrypt_and_verify_auth_result, hdec, hnjwt, Json.asStr, hver, hs,
      fromValueAuthStatus_error h1 h2]
  · intro raw st hs hok ha hu
    simp [decrypt_and_verify_auth_result, hdec, hnjwt, Json.asStr, hver, hs,
      hok, ha, hu]
  · intro raw st u hs hok ha hu
    simp [decrypt_and_verify_auth_result, hdec, hnjwt, Json.asStr, hver, hs,
      hok, ha, hu, fromValueString, Except.map]
  · intro raw st rawA m hs hok ha hm hu
    simp [decrypt_and_verify_auth_result, hdec, hnjwt, Json.asStr, hver, hs,
      hok, ha, hm, hu, Except.map]

/-- Witness for C3: a verified inner assertion with no claims at all
yields InvalidStructure, and one holding only a valid status yields the
AuthResult with both optional fields None. -/
theorem C3_status_witness :
    decrypt_and_verify_auth_result
      (.compact .RSA_OAEP 2 none none none
        [("njwt", .str (.jwsCompact .RS256 3 none []))])
      { alg := .RS256, keyId := 3 } { alg := .RSA_OAEP, keyId := 2 } =
      .error .InvalidStructure ∧
    decrypt_and_verify_auth_result
      (.compact .RSA_OAEP 2 none none none
        [("njwt", .str (.jwsCompact .RS256 3 none
          [("status", .str (.plain "Succes"))]))])
      { alg := .RS256, keyId := 3 } { alg := .RSA_OAEP, keyId := 2 } =
      .ok ⟨.Succes, none, none⟩ :=
  ⟨(C3_status_required_optionals_tolerated
      (.compact .RSA_OAEP 2 none none none
        [("njwt", .str (.jwsCompact .RS256 3 none []))])
      { alg := .RS256, keyId := 3 } { alg := .RSA_OAEP, keyId := 2 }
      [("njwt", .str (.jwsCompact .RS256 3 none []))] []
      (.jwsCompact .RS256 3 none []) rfl rfl rfl).1 rfl,
   (C3_status_required_optionals_tolerated
      (.compact .RSA_OAEP 2 none none none
        [("njwt", .str (.jwsCompact .RS256 3 none
          [("status", .str (.plain "Succes"))]))])
      { alg := .RS256, keyId := 3 } { alg := .RSA_OAEP, keyId := 2 }
      [("njwt", .str (.jwsCompact .RS256 3 none
        [("status", .str (.plain "Succes"))]))]
      [("status", .str (.plain "Succes"))]
      (.jwsCompact .RS256 3 none [("status", .str (.plain "Succes"))])
      rfl rfl rfl).2.2.1
    (.str (.plain "Succes")) .Succes rfl rfl rfl rfl⟩

/-- Claim C8: in the attribute decoder, once decryption, njwt extraction
and verification succeed, a missing `attributes` claim yields
InvalidStructure, a well-shaped value deserializes to the returned
mapping, and a value of the wrong JSON shape yields a serialization
error. -/
theorem C8_attributes_claim_handling (jwe : JweStr)
    (validator : JwsVerifier) (decrypter : JweDecrypter)
    (payload inner : JwtPayload) (s : RStr)
    (hdec : decode_with_decrypter jwe decrypter = .ok payload)
    (hnjwt : payload.claim "njwt" = some (.str s))
    (hver : decode_with_verifier s validator = .ok inner) :
    (inner.claim "attributes" = none →
      decrypt_and_verify_attributes jwe validator decrypter =
        .error .InvalidStructure) ∧
    (∀ raw m, inner.claim "attributes" = some raw →
      fromValueStringMap raw = .ok m →
      decrypt_and_verify_attributes jwe validator decrypter = .ok m) ∧
    (∀ raw, inner.claim "attributes" = some raw → ¬ isStringMapShape raw →
      decrypt_and_verify_attributes jwe validator decrypter =
        .error (.Json .invalidType)) := by
  refine ⟨?_, ?_, ?_⟩
  · intro ha
    simp [decrypt_and_verify_attributes, hdec, hnjwt, Json.asStr, hver, ha]
  · intro raw m ha hm
    simp [decrypt_and_verify_attributes, hdec, hnjwt, Json.asStr, hver, ha, hm]
  · intro raw ha hshape
    simp [decrypt_and_verify_attributes, hdec, hnjwt, Json.asStr, hver, ha,
      fromValueStringMap_error hshape]

/-- Witness for C8: a verified inner assertion without `attributes`
yields InvalidStructure; one carrying a string map returns it; one whose
`attributes` value is a number yields a serialization error. -/
theorem C8_attributes_witness :
    decrypt_and_verify_attributes
      (.compact .ECDH_ES 1 none none none
        [("njwt", .str (.jwsCompact .ES256 0 none []))])
      { alg := .ES256, keyId := 0 } { alg := .ECDH_ES, keyId := 1 } =
      .error .InvalidStructure ∧
    decrypt_and_verify_attributes
      (.compact .ECDH_ES 1 none none none
        [("njwt", .str (.jwsCompact .ES256 0 none
          [("attributes", attributesToValue [("A", .plain "B")])]))])
      { alg := .ES256, keyId := 0 } { alg := .ECDH_ES, keyId := 1 } =
      .ok [("A", .plain "B")] ∧
    decrypt_and_verify_attributes
      (.compact .ECDH_ES 1 none none none
        [("njwt", .str (.jwsCompact .ES256 0 none [("attributes", .num 3)]))])
      { alg := .ES256, keyId := 0 } { alg := .ECDH_ES, keyId := 1 } =
      .error (.Json .invalidType) :=
  ⟨(C8_attributes_claim_handling
      (.compact .ECDH_ES 1 none none none
        [("njwt", .str (.jwsCompact .ES256 0 none []))])
      { alg := .ES256, keyId := 0 } { alg := .ECDH_ES, keyId := 1 }
      [("njwt", .str (.jwsCompact .ES256 0 none []))] []
      (.jwsCompact .ES256 0 none []) rfl rfl rfl).1 rfl,
   (C8_attributes_claim_handling
      (.compact .ECDH_ES 1 none none none
        [("njwt", .str (.jwsCompact .ES256 0 none
          [("attributes", attributesToValue [("A", .plain "B")])]))])
      { alg := .ES256, keyId := 0 } { alg := .ECDH_ES, keyId := 1 }
      [("njwt", .str (.jwsCompact .ES256 0 none
        [("attributes", attributesToValue [("A", .plain "B")])]))]
      [("attributes", attributesToValue [("A", .plain "B")])]
      (.jwsCompact .ES256 0 none
        [("attributes", attributesToValue [("A", .plain "B")])])
      rfl rfl rfl).2.1
    _ _ rfl (fromValueStringMap_attributesToValue _),
   (C8_attributes_claim_handling
      (.compact .ECDH_ES 1 none none none
        [("njwt", .str (.jwsCompact .ES256 0 none [("attributes", .num 3)]))])
      { alg := .ES256, keyId := 0 } { alg := .ECDH_ES, keyId := 1 }
      [("njwt", .str (.jwsCompact .ES256 0 none [("attributes", .num 3)]))]
      [("attributes", .num 3)]
      (.jwsCompact .ES256 0 none [("attributes", .num 3)])
      rfl rfl rfl).2.2 (.num 3) rfl
    (by rintro ⟨fields, h, -⟩; cases h)⟩

/-- Claim C9: in the auth-result decoder, after a successful pipeline and
a valid status, a present `attributes` claim that is not a
string-to-string object, or a present `session_url` claim that is not a
JSON string, makes the whole call fail with a serialization (Json)
error: the malformed optional claim is neither ignored nor reported as
InvalidStructure and no partial AuthResult is returned. -/
theorem C9_malformed_optional_claims_fail (jwe : JweStr)
    (validator : JwsVerifier) (decrypter : JweDecrypter)
    (payload inner : JwtPayload) (s : RStr) (raw : Json) (st : AuthStatus)
    (hdec : decode_with_decrypter jwe decrypter = .ok payload)
    (hnjwt : payload.claim "njwt" = some (.str s))
    (hver : decode_with_verifier s validator = .ok inner)
    (hs : inner.claim "status" = some raw)
    (hok : fromValueAuthStatus raw = .ok st) :
    (∀ rawA, inner.claim "attributes" = some rawA → ¬ isStringMapShape rawA →
      decrypt_and_verify_auth_result jwe validator decrypter =
        .error (.Json .invalidType)) ∧
    (∀ rawU, inner.claim "session_url" = some rawU →
      (∀ s', rawU ≠ .str s') →
      ∃ e, decrypt_and_verify_auth_result jwe validator decrypter =
        .error (.Json e)) := by
  constructor
  · intro rawA ha hshape
    simp [decrypt_and_verify_auth_result, hdec, hnjwt, Json.asStr, hver, hs,
      hok, ha, fromValueStringMap_error hshape, Except.map]
  · intro rawU hu hns
    rcases ha : inner.claim "attributes" with - | rawA
    · exact ⟨.invalidType, by
        simp [decrypt_and_verify_auth_result, hdec, hnjwt, Json.asStr, hver,
          hs, hok, ha, hu, fromValueString_error hns, Except.map]⟩
    · rcases hm : fromValueStringMap rawA with e | m
      · exact ⟨e, by
          simp [decrypt_and_verify_auth_result, hdec, hnjwt, Json.asStr, hver,
            hs, hok, ha, hm, Except.map]⟩
      · exact ⟨.invalidType, by
          simp [decrypt_and_verify_auth_result, hdec, hnjwt, Json.asStr, hver,
            hs, hok, ha, hm, hu, Except.map, fromValueString_error hns]⟩

/-- Witness for C9: a numeric `attributes` value and a numeric
`session_url` value each make the auth-result decode fail with a
serialization error. -/
theorem C9_malformed_witness :
    decrypt_and_verify_auth_result
      (.compact .RSA_OAEP 9 none none none
        [("njwt", .str (.jwsCompact .RS256 8 none
          [("status", .str (.plain "Failed")), ("attributes", .num 1)]))])
      { alg := .RS256, keyId := 8 } { alg := .RSA_OAEP, keyId := 9 } =
      .error (.Json .invalidType) ∧
    (∃ e, decrypt_and_verify_auth_result
      (.compact .RSA_OAEP 9 none none none
        [("njwt", .str (.jwsCompact .RS256 8 none
          [("status", .str (.plain "Failed")), ("session_url", .num 2)]))])
      { alg := .RS256, keyId := 8 } { alg := .RSA_OAEP, keyId := 9 } =
      .error (.Json e)) :=
  ⟨(C9_malformed_optional_claims_fail
      (.compact .RSA_OAEP 9 none none none
        [("njwt", .str (.jwsCompact .RS256 8 none
          [("status", .str (.plain "Failed")), ("attributes", .num 1)]))])
      { alg := .RS256, keyId := 8 } { alg := .RSA_OAEP, keyId := 9 }
      [("njwt", .str (.jwsCompact .RS256 8 none
        [("status", .str (.plain "Failed")), ("attributes", .num 1)]))]
      [("status", .str (.plain "Failed")), ("attributes", .num 1)]
      (.jwsCompact .RS256 8 none
        [("status", .str (.plain "Failed")), ("attributes", .num 1)])
      (.str (.plain "Failed")) .Failed rfl rfl rfl rfl rfl).1
    (.num 1) rfl (by rintro ⟨fields, h, -⟩; cases h),
   (C9_malformed_optional_claims_fail
      (.compact .RSA_OAEP 9 none none none
        [("njwt", .str (.jwsCompact .RS256 8 none
          [("status", .str (.plain "Failed")), ("session_url", .num 2)]))])
      { alg := .RS256, keyId := 8 } { alg := .RSA_OAEP, keyId := 9 }
      [("njwt", .str (.jwsCompact .RS256 8 none
        [("status", .str (.plain "Failed")), ("session_url", .num 2)]))]
      [("status", .str (.plain "Failed")), ("session_url", .num 2)]
      (.jwsCompact .RS256 8 none
        [("status", .str (.plain "Failed")), ("session_url", .num 2)])
      (.str (.plain "Failed")) .Failed rfl rfl rfl rfl rfl).2
    (.num 2) rfl (fun s' h => by cases h)⟩

end VH
